import Mathlib

/-!
Verification of the metric computation engine of metrics-cc360-2025.

This file gives a shallow embedding of the Python sources
src/snowflake_service.py, src/metrics_registry.py and src/metrics_service.py
and proves or refutes the frozen claims about them.

Modelling conventions:
- A row returned by the warehouse is an association list from column name to
  an optional integer cell (None models SQL null).  The claims under study
  only exercise numeric cells, so string and timestamp cells are not needed;
  the float(...) and int(...) conversions of the source are the identity on
  this cell type.
- Wall-clock time is passed in explicitly: datetimes are integers, and the
  measured elapsed time of a computation is a natural-number parameter that
  stands for time.time() - start_time.
- Effects are made explicit: query execution is a function from query text to
  an Except value (the Python exception raised, if any), session creation is
  an Except value in an environment record, and log output is returned as a
  list of strings.  The numeric latency figures interpolated into log lines
  by the source are abstracted away from the log text, as are the float
  format specifiers used in generated messages; no claim depends on them.
- The SQL text produced by the query builder modules under src/queries is
  treated as opaque strings, exactly as the specification does.
-/

/-- Row of a tabular result: ordered mapping from column name to nullable cell. -/
abbrev Row : Type := List (String × Option Int)

/-- Models the metric type check of a column name against a row, i.e. the
Python membership test col in row followed by row[col]: the outer Option is
absence of the column, the inner Option is a null cell.  The lookup is exact
on the column name, matching the case-sensitive Python membership test. -/
def lookup_col (row : Row) (col : String) : Option (Option Int) :=
  (row.find? (fun p => p.1 == col)).map (fun p => p.2)

/-- MetricType from src/metrics_registry.py, a closed enum. -/
inductive MetricType where
  | percentage
  | ratio
  | count
  | currency
  | list
  | pareto
deriving DecidableEq

/-- The value field of the MetricType enum members. -/
def MetricType.value : MetricType → String
  | .percentage => "percentage"
  | .ratio => "ratio"
  | .count => "count"
  | .currency => "currency"
  | .list => "list"
  | .pareto => "pareto"

/-- MetricConfig from src/metrics_registry.py, restricted to the fields read
by the operations verified here (display metadata, the details query builder
and the per-metric cache_ttl field are pass-through data that no modelled
operation reads). -/
structure MetricConfig where
  key : String
  title : String
  description : String
  category : String
  metric_type : MetricType
  summary_query : Int → Int → String

/-- MetricResponse from src/metrics_service.py with the Python field
defaults. -/
structure MetricResponse where
  value : Option Int
  numerator : Int
  denominator : Int
  status : String
  message : String
  data : Option (List Row) := none
  cached : Bool := false
  execution_time : Option Nat := none
deriving DecidableEq

/-- A Python exception value as seen by the blanket exception handler of
calculate_metric: either the SnowflakeConnectionError raised while obtaining
a session, or the generic Exception raised by execute_query on query
failure.  In both cases the handler only consumes str(e). -/
inductive PyError where
  | connError (msg : String)
  | queryError (msg : String)
deriving DecidableEq

/-- The str(e) of a PyError. -/
def PyError.text : PyError → String
  | .connError m => m
  | .queryError m => m

/-! ## src/snowflake_service.py -/

deriving instance DecidableEq for Except

/-- Mutable state of a SnowflakeService instance as set up by its init
method: an optional connection handle (handles are identified by natural
numbers), the time the handle was created, and the staleness timeout
(300 seconds in the source). -/
structure SFState where
  conn : Option Nat
  last_connection_time : Option Nat
  connection_timeout : Nat := 300
deriving DecidableEq

/-- Environment of the connection manager: the outcome of the body of
the private connection constructor at this moment (key loading plus the
warehouse connect call, abstracted to an Except carrying the new handle or
the text str(e) of the underlying failure), and whether closing a given
handle raises.  The close outcome is recorded in the environment so that
theorems can state that the behaviour of get_connection does not depend on
it: the source wraps conn.close() in a bare try/except whose handler is
pass. -/
structure SFEnv where
  create : Except String Nat
  closeFails : Nat → Bool

/-- Models SnowflakeService._create_connection: on success the new handle,
on failure a log line and a SnowflakeConnectionError whose message wraps the
underlying exception text. -/
def create_connection (env : SFEnv) : Except String Nat × List String :=
  match env.create with
  | .ok c => (.ok c, [])
  | .error m => (.error ("Failed to connect to Snowflake: " ++ m),
                 ["Snowflake connection error: " ++ m])

/-- Result of one call to get_connection: the returned handle or the
propagated connection error, the state of the service after the call, the
handles on which close was attempted, and the log lines emitted. -/
structure GetConnResult where
  result : Except String Nat
  state : SFState
  closed : List Nat
  logs : List String
deriving DecidableEq

/-- Models SnowflakeService.get_connection.  The staleness test is the
Python condition: no handle, or no recorded creation time, or strictly more
than connection_timeout seconds elapsed since creation.  A stale or absent
handle is closed best-effort (the close attempt is recorded; its outcome is
ignored and nothing is logged for it, mirroring the bare except/pass) and a
new handle is created; if creation raises, the exception propagates and the
two assignment statements are never reached, so the state is unchanged. -/
def get_connection (env : SFEnv) (st : SFState) (current_time : Nat) :
    GetConnResult :=
  if st.conn = none ∨ st.last_connection_time = none ∨
      current_time - st.last_connection_time.getD 0 > st.connection_timeout then
    let closed : List Nat := match st.conn with
      | some c => [c]
      | none => []
    match create_connection env with
    | (.ok c, clogs) =>
        { result := .ok c,
          state := { st with conn := some c,
                             last_connection_time := some current_time },
          closed := closed,
          logs := clogs ++ ["Created new Snowflake connection"] }
    | (.error m, clogs) =>
        { result := .error m, state := st, closed := closed, logs := clogs }
  else
    { result := .ok (st.conn.getD 0), state := st, closed := [], logs := [] }

/-- Models SnowflakeService.execute_query as seen from one call: the first
argument is the outcome of self.get_connection() for this call (the
connection handle itself is not consumed further by the model), the second
is the outcome of pd.read_sql on the given query text.  The call to
get_connection stands before the try block, so a connection error
propagates unwrapped; a query failure is re-raised as a generic Exception
whose message wraps only the underlying exception text.  The log lines are
returned alongside: the entry line carries the query text truncated to 100
characters. -/
def execute_query (getConn : Except String Unit)
    (runSql : String → Except String (List Row)) (query : String) :
    Except PyError (List Row) × List String :=
  match getConn with
  | .error m => (.error (.connError m), [])
  | .ok _ =>
      match runSql query with
      | .ok df =>
          (.ok df,
           ["Executing query: " ++ query.take 100 ++ "...",
            "Query executed successfully, returned " ++
              toString df.length ++ " rows"])
      | .error m =>
          (.error (.queryError ("Query execution failed: " ++ m)),
           ["Executing query: " ++ query.take 100 ++ "...",
            "Query execution failed: " ++ m])

/-- Models the per-cell cleaning of clean_dataframe_for_json on the numeric
cell type: null-like cells become None, every other cell passes through. -/
def clean_cell : Option Int → Option Int
  | none => none
  | some v => some v

/-- Models SnowflakeService.clean_dataframe_for_json. -/
def clean_dataframe_for_json (df : List Row) : List Row :=
  df.map (fun row => row.map (fun p => (p.1, clean_cell p.2)))

/-! ## src/metrics_registry.py -/

/-- Models MetricsRegistry.get_metric over the registry contents, which a
Python dict with unique keys represented as an association list. -/
def get_metric (reg : List (String × MetricConfig)) (key : String) :
    Option MetricConfig :=
  (reg.find? (fun p => p.1 == key)).map (fun p => p.2)

/-- Registry entry for dormant_account_rate from register_all_metrics. -/
def dormant_account_rate_config : MetricConfig :=
  { key := "dormant_account_rate",
    title := "Dormant Account Rate",
    description :=
      "Percentage of new purchasers with zero sessions after first purchase",
    category := "Customer Success",
    metric_type := .percentage,
    summary_query := fun _ _ => "SQL:dormant_account_rate_summary" }

/-- Registry entry for t24h_activation_rate from register_all_metrics. -/
def t24h_activation_rate_config : MetricConfig :=
  { key := "t24h_activation_rate",
    title := "24h Activation Rate",
    description :=
      "Percentage of new users who performed a key action within 24 hours",
    category := "Customer Success",
    metric_type := .percentage,
    summary_query := fun _ _ => "SQL:t24h_activation_rate_summary" }

/-- Registry entry for involuntary_churn_rate from register_all_metrics. -/
def involuntary_churn_rate_config : MetricConfig :=
  { key := "involuntary_churn_rate",
    title := "Involuntary Churn Rate",
    description :=
      "Percentage of subscriptions canceled due to failed payments",
    category := "Finance",
    metric_type := .percentage,
    summary_query := fun _ _ => "SQL:involuntary_churn_rate_summary" }

/-- Registry entry for dunning_recovery_rate from register_all_metrics. -/
def dunning_recovery_rate_config : MetricConfig :=
  { key := "dunning_recovery_rate",
    title := "Dunning Recovery Rate",
    description :=
      "Percentage of failed payments that were successfully recovered",
    category := "Finance",
    metric_type := .percentage,
    summary_query := fun _ _ => "SQL:dunning_recovery_rate_summary" }

/-- Registry entry for facebook_cac_to_ltv_ratio from register_all_metrics. -/
def facebook_cac_to_ltv_ratio_config : MetricConfig :=
  { key := "facebook_cac_to_ltv_ratio",
    title := "Facebook CAC to LTV Ratio",
    description :=
      "Customer Acquisition Cost to Lifetime Value ratio for Facebook ads",
    category := "Marketing",
    metric_type := .ratio,
    summary_query := fun _ _ => "SQL:facebook_cac_to_ltv_summary" }

/-- Registry entry for facebook_lead_ads_total from register_all_metrics. -/
def facebook_lead_ads_total_config : MetricConfig :=
  { key := "facebook_lead_ads_total",
    title := "Facebook Lead Ads Total",
    description :=
      "Total count of Facebook lead ads in the selected date range",
    category := "Marketing",
    metric_type := .count,
    summary_query := fun _ _ => "SQL:facebook_lead_ads_summary" }

/-- Registry entry for platform_breakdown from register_all_metrics. -/
def platform_breakdown_config : MetricConfig :=
  { key := "platform_breakdown",
    title := "Platform Breakdown",
    description := "Top platforms by event count",
    category := "Product & IT",
    metric_type := .list,
    summary_query := fun _ _ => "SQL:platform_breakdown_summary" }

/-- Registry entry for root_cause_pareto from register_all_metrics. -/
def root_cause_pareto_config : MetricConfig :=
  { key := "root_cause_pareto",
    title := "Root Cause Pareto",
    description := "Top payment failure reasons",
    category := "Finance",
    metric_type := .pareto,
    summary_query := fun _ _ => "SQL:root_cause_pareto_summary" }

/-- The registry contents built by register_all_metrics in
src/metrics_registry.py: the eight registered metrics in registration
order, keyed as in the source.  The SQL builder of each metric is opaque;
here each one is modelled as a distinct constant string tagged with the
metric key. -/
def all_configs : List (String × MetricConfig) :=
  [("dormant_account_rate", dormant_account_rate_config),
   ("t24h_activation_rate", t24h_activation_rate_config),
   ("involuntary_churn_rate", involuntary_churn_rate_config),
   ("dunning_recovery_rate", dunning_recovery_rate_config),
   ("facebook_cac_to_ltv_ratio", facebook_cac_to_ltv_ratio_config),
   ("facebook_lead_ads_total", facebook_lead_ads_total_config),
   ("platform_breakdown", platform_breakdown_config),
   ("root_cause_pareto", root_cause_pareto_config)]

/-! ## src/metrics_service.py -/

/-- The value_columns dict of MetricsService._extract_value, including the
dict.get default used for unknown type strings. -/
def value_columns (metric_type : String) : List String :=
  if metric_type == "percentage" then
    ["rate", "percentage", "ratio", "dormant_rate", "activation_rate"]
  else if metric_type == "ratio" then
    ["ratio", "cac_to_ltv_ratio", "value"]
  else if metric_type == "count" then
    ["total", "count", "total_leads", "total_users"]
  else if metric_type == "currency" then
    ["amount", "revenue", "spend", "value"]
  else if metric_type == "list" then
    ["event_count", "count"]
  else if metric_type == "pareto" then
    ["count"]
  else
    ["value", "total", "count"]

/-- The candidate loop shared by the three extractors of
src/metrics_service.py: return the cell of the first candidate column that
is present in the row with a non-null cell. -/
def first_match (row : Row) : List String → Option Int
  | [] => none
  | col :: rest =>
      match lookup_col row col with
      | some (some v) => some v
      | _ => first_match row rest

/-- Models MetricsService._extract_value; metric_type is the string value
of the config metric type. -/
def extract_value (row : Row) (metric_type : String) : Option Int :=
  first_match row (value_columns metric_type)

/-- Models MetricsService._extract_numerator. -/
def extract_numerator (row : Row) : Int :=
  (first_match row
    ["numerator", "dormant_users", "conversions", "total_leads"]).getD 0

/-- Models MetricsService._extract_denominator. -/
def extract_denominator (row : Row) : Int :=
  (first_match row ["denominator", "total_users", "total_cancels"]).getD 0

/-- Models MetricsService._generate_message; the float format specifiers of
the source are abstracted to toString. -/
def generate_message (config : MetricConfig) (value : Option Int)
    (numerator denominator : Int) : String :=
  match value with
  | none => "No data available for " ++ config.title
  | some v =>
      if config.metric_type.value == "percentage" then
        if denominator > 0 then
          toString numerator ++ " out of " ++ toString denominator ++
            " users (" ++ toString v ++ ")"
        else
          toString v ++ " rate"
      else if config.metric_type.value == "count" then
        toString v ++ " total"
      else if config.metric_type.value == "ratio" then
        toString v ++ " ratio"
      else
        config.description

/-- Models MetricsService._process_metric_results.  An empty frame returns
the no-data response with value None and data set to the empty list for
every metric type; otherwise the semantic fields are extracted from the
first row and the full cleaned row set is attached only for list or pareto
types with more than one row.  The execution_time field is filled in by the
caller. -/
def process_metric_results (df : List Row) (config : MetricConfig) :
    MetricResponse :=
  match df with
  | [] =>
      { value := none, numerator := 0, denominator := 0, status := "ok",
        message := "No data available for " ++ config.title,
        data := some [] }
  | row :: _ =>
      let value := extract_value row config.metric_type.value
      let numerator := extract_numerator row
      let denominator := extract_denominator row
      let message := generate_message config value numerator denominator
      let data :=
        if (config.metric_type.value == "list" ||
            config.metric_type.value == "pareto") && df.length > 1 then
          some (clean_dataframe_for_json df)
        else
          none
      { value := value, numerator := numerator, denominator := denominator,
        status := "ok", message := message, data := data }

/-- Models MetricsService.calculate_metric.  The first two arguments stand
for the outcome of session acquisition and of raw query execution inside
self.snowflake.execute_query for this call; elapsed stands for the measured
wall-clock duration time.time() - start_time.  The init method of the
service also builds a TTLCache of maximal size 100 and time to live 300
seconds, but no method of the class ever reads or writes it, so the model
takes no cache input: the body of the source method is a registry lookup,
one guarded query execution and result processing inside a blanket
exception handler that converts any raised exception into an error
response. -/
def calculate_metric (getConn : Except String Unit)
    (runSql : String → Except String (List Row))
    (reg : List (String × MetricConfig)) (metric_key : String)
    (start_dt end_dt : Int) (elapsed : Nat) : MetricResponse :=
  match get_metric reg metric_key with
  | none =>
      { value := none, numerator := 0, denominator := 0, status := "error",
        message := "Unknown metric: " ++ metric_key }
  | some config =>
      let query := config.summary_query start_dt end_dt
      match (execute_query getConn runSql query).1 with
      | .ok df =>
          { process_metric_results df config with
              execution_time := some elapsed }
      | .error e =>
          { value := none, numerator := 0, denominator := 0,
            status := "error",
            message := "Error calculating " ++ metric_key ++ ": " ++ e.text,
            execution_time := some elapsed }

/-- Models MetricsService.calculate_all_metrics: one entry per registered
metric, each computed by calculate_metric on the same date range.  The
try/except around each iteration of the source loop is unreachable in the
model because calculate_metric is total, exactly as its own blanket handler
makes it in the source. -/
def calculate_all_metrics (getConn : Except String Unit)
    (runSql : String → Except String (List Row))
    (reg : List (String × MetricConfig)) (start_dt end_dt : Int)
    (elapsed : Nat) : List (String × MetricResponse) :=
  reg.map (fun p =>
    (p.1, calculate_metric getConn runSql reg p.1 start_dt end_dt elapsed))

/-! ## Helper lemmas -/

/-- Every response of calculate_metric carries status ok or status error:
each source path sets the field to one of these two literals. -/
theorem calculate_metric_status_cases (getConn : Except String Unit)
    (runSql : String → Except String (List Row))
    (reg : List (String × MetricConfig)) (k : String) (s e : Int)
    (el : Nat) :
    (calculate_metric getConn runSql reg k s e el).status = "ok" ∨
    (calculate_metric getConn runSql reg k s e el).status = "error" := by
  unfold calculate_metric
  cases hm : get_metric reg k with
  | none => exact Or.inr rfl
  | some config =>
      dsimp only
      cases hq : (execute_query getConn runSql (config.summary_query s e)).1 with
      | error err => exact Or.inr rfl
      | ok df =>
          cases df with
          | nil => exact Or.inl rfl
          | cons r t => exact Or.inl rfl

/-- The candidate loop returns the cell of the pivot column when every
candidate before it is absent from the row or has a null cell. -/
theorem first_match_append (row : Row) (c : String) (v : Int)
    (pre post : List String)
    (hc : lookup_col row c = some (some v))
    (hpre : ∀ c2 ∈ pre,
      lookup_col row c2 = none ∨ lookup_col row c2 = some none) :
    first_match row (pre ++ c :: post) = some v := by
  induction pre with
  | nil =>
      simp only [List.nil_append, first_match, hc]
  | cons c2 rest ih =>
      have hrest : ∀ x ∈ rest,
          lookup_col row x = none ∨ lookup_col row x = some none :=
        fun x hx => hpre x (List.mem_cons_of_mem _ hx)
      have h2 := hpre c2 (List.mem_cons_self _ _)
      cases h2 with
      | inl h => simp only [List.cons_append, first_match, h]; exact ih hrest
      | inr h => simp only [List.cons_append, first_match, h]; exact ih hrest

/-! ## Claims -/

/-- C1: the source constructs a TTLCache in the init method of
MetricsService but no method ever reads it or writes to it, so no call to
calculate_metric is ever served from a cache: the cached field of every
response, in particular of the response to a repeated call with the same
key and date range inside the TTL window, is false.  This refutes the
claimed caching round-trip in which the second call returns cached true. -/
theorem calculate_metric_never_cached (getConn : Except String Unit)
    (runSql : String → Except String (List Row))
    (reg : List (String × MetricConfig)) (k : String) (s e : Int)
    (el : Nat) :
    (calculate_metric getConn runSql reg k s e el).cached = false := by
  unfold calculate_metric
  cases hm : get_metric reg k with
  | none => rfl
  | some config =>
      dsimp only
      cases hq : (execute_query getConn runSql (config.summary_query s e)).1 with
      | error err => rfl
      | ok df =>
          cases df with
          | nil => rfl
          | cons r t => rfl

/-- C5: calculate_all_metrics returns exactly one entry per registered
metric, in registration order, for every session outcome, every query
outcome (including one that fails on every query text) and every date
range. -/
theorem calculate_all_metrics_keys (getConn : Except String Unit)
    (runSql : String → Except String (List Row))
    (reg : List (String × MetricConfig)) (s e : Int) (el : Nat) :
    (calculate_all_metrics getConn runSql reg s e el).map Prod.fst =
      reg.map Prod.fst := by
  unfold calculate_all_metrics
  rw [List.map_map]
  rfl

/-- C10: every response produced by calculate_metric has status ok or
status error, and so does every entry of calculate_all_metrics; the
statuses partial and missing allowed by the response shape are produced on
no code path. -/
theorem calculate_metric_status_ok_or_error (getConn : Except String Unit)
    (runSql : String → Except String (List Row))
    (reg : List (String × MetricConfig)) (k : String) (s e : Int)
    (el : Nat) :
    ((calculate_metric getConn runSql reg k s e el).status = "ok" ∨
     (calculate_metric getConn runSql reg k s e el).status = "error") ∧
    ∀ p ∈ calculate_all_metrics getConn runSql reg s e el,
      p.2.status = "ok" ∨ p.2.status = "error" := by
  refine ⟨calculate_metric_status_cases getConn runSql reg k s e el, ?_⟩
  intro p hp
  unfold calculate_all_metrics at hp
  obtain ⟨q, hq, rfl⟩ := List.mem_map.1 hp
  exact calculate_metric_status_cases getConn runSql reg q.1 s e el

/-- C2 counterexample: a zero-row result for the registered percentage
metric dormant_account_rate yields value None, not 0 as the claim states;
the status is ok and numerator and denominator are 0. -/
theorem empty_percentage_value_is_none :
    (calculate_metric (.ok ()) (fun _ => .ok []) all_configs
        "dormant_account_rate" 0 30 2).value = none ∧
    (calculate_metric (.ok ()) (fun _ => .ok []) all_configs
        "dormant_account_rate" 0 30 2).value ≠ some 0 ∧
    (calculate_metric (.ok ()) (fun _ => .ok []) all_configs
        "dormant_account_rate" 0 30 2).status = "ok" := by
  exact ⟨rfl, by decide, rfl⟩

/-- C2 amended: for every registered metric of every type, a zero-row
summary result produces status ok, value None, numerator 0, denominator 0,
the empty list as data, and a message stating no data is available for the
metric title. -/
theorem calculate_metric_empty_result (getConn : Except String Unit)
    (runSql : String → Except String (List Row))
    (reg : List (String × MetricConfig)) (k : String) (cfg : MetricConfig)
    (s e : Int) (el : Nat)
    (hm : get_metric reg k = some cfg)
    (hgc : getConn = .ok ())
    (hq : runSql (cfg.summary_query s e) = .ok []) :
    calculate_metric getConn runSql reg k s e el =
      { value := none, numerator := 0, denominator := 0, status := "ok",
        message := "No data available for " ++ cfg.title, data := some [],
        cached := false, execution_time := some el } := by
  subst hgc
  unfold calculate_metric
  rw [hm]
  dsimp only
  unfold execute_query
  rw [hq]
  rfl

/-- C2 witness: the amended empty-result policy evaluated on the
dormant_account_rate entry of the registry with a query layer that returns
zero rows. -/
theorem calculate_metric_empty_result_witness :
    calculate_metric (.ok ()) (fun _ => .ok []) all_configs
        "dormant_account_rate" 0 30 2 =
      { value := none, numerator := 0, denominator := 0, status := "ok",
        message := "No data available for Dormant Account Rate",
        data := some [], cached := false, execution_time := some 2 } :=
  calculate_metric_empty_result (.ok ()) (fun _ => .ok []) all_configs
    "dormant_account_rate" dormant_account_rate_config 0 30 2 rfl rfl rfl

/-- C7: when the summary query of a registered metric raises, the call to
calculate_metric returns a response rather than raising: the response has
status error, its message wraps the exception text of the query failure,
and its execution_time field carries the measured elapsed time.  Totality
of the model function is the image of the blanket exception handler of the
source method. -/
theorem calculate_metric_query_error_local (getConn : Except String Unit)
    (runSql : String → Except String (List Row))
    (reg : List (String × MetricConfig)) (k : String) (cfg : MetricConfig)
    (s e : Int) (el : Nat) (m : String)
    (hm : get_metric reg k = some cfg)
    (hgc : getConn = .ok ())
    (hq : runSql (cfg.summary_query s e) = .error m) :
    (calculate_metric getConn runSql reg k s e el).status = "error" ∧
    (calculate_metric getConn runSql reg k s e el).message =
      "Error calculating " ++ k ++ ": " ++
        ("Query execution failed: " ++ m) ∧
    (calculate_metric getConn runSql reg k s e el).execution_time =
      some el := by
  subst hgc
  unfold calculate_metric
  rw [hm]
  dsimp only
  unfold execute_query
  rw [hq]
  exact ⟨rfl, rfl, rfl⟩

/-- C7 witness: a failing dormant_account_rate summary query is converted
into a local error response with the exception text and the measured
time. -/
theorem calculate_metric_query_error_local_witness :
    (calculate_metric (.ok ()) (fun _ => .error "boom") all_configs
        "dormant_account_rate" 0 30 4).status = "error" ∧
    (calculate_metric (.ok ()) (fun _ => .error "boom") all_configs
        "dormant_account_rate" 0 30 4).message =
      "Error calculating dormant_account_rate: " ++
        "Query execution failed: boom" ∧
    (calculate_metric (.ok ()) (fun _ => .error "boom") all_configs
        "dormant_account_rate" 0 30 4).execution_time = some 4 :=
  calculate_metric_query_error_local (.ok ()) (fun _ => .error "boom")
    all_configs "dormant_account_rate" dormant_account_rate_config 0 30 4
    "boom" rfl rfl rfl

/-- C4 counterexample: a connection failure during calculate_metric for the
registered key dormant_account_rate is converted into a structured
per-metric error response, not propagated: the call returns a
MetricResponse whose message wraps the SnowflakeConnectionError text.  The
blanket except Exception handler of the source method catches
SnowflakeConnectionError like any other exception, so the claimed
propagation to the caller cannot happen on this path. -/
theorem conn_error_converted_not_propagated :
    calculate_metric (.error "Failed to connect to Snowflake: network down")
        (fun _ => .ok []) all_configs "dormant_account_rate" 0 30 3 =
      { value := none, numerator := 0, denominator := 0, status := "error",
        message := "Error calculating dormant_account_rate: " ++
          "Failed to connect to Snowflake: network down",
        data := none, cached := false, execution_time := some 3 } := by
  rfl

/-- C4 amended: when session creation fails during calculate_metric for a
registered key, the SnowflakeConnectionError is caught by the same blanket
handler as every other failure and converted into that metric response:
status error, message wrapping the connection error text, and the measured
execution time. -/
theorem calculate_metric_connection_error_structured
    (runSql : String → Except String (List Row))
    (reg : List (String × MetricConfig)) (k : String) (cfg : MetricConfig)
    (s e : Int) (el : Nat) (m : String)
    (hm : get_metric reg k = some cfg) :
    calculate_metric (.error m) runSql reg k s e el =
      { value := none, numerator := 0, denominator := 0, status := "error",
        message := "Error calculating " ++ k ++ ": " ++ m, data := none,
        cached := false, execution_time := some el } := by
  unfold calculate_metric
  rw [hm]
  rfl

/-- C4 witness: the amended conversion rule evaluated on the
dormant_account_rate registry entry with a failing session creation. -/
theorem calculate_metric_connection_error_structured_witness :
    calculate_metric (.error "Failed to connect to Snowflake: bad key")
        (fun _ => .ok []) all_configs "dormant_account_rate" 0 30 5 =
      { value := none, numerator := 0, denominator := 0, status := "error",
        message :=
          "Error calculating dormant_account_rate: " ++
            "Failed to connect to Snowflake: bad key",
        data := none, cached := false, execution_time := some 5 } :=
  calculate_metric_connection_error_structured (fun _ => .ok []) all_configs
    "dormant_account_rate" dormant_account_rate_config 0 30 5
    "Failed to connect to Snowflake: bad key" rfl

/-- C3 counterexample: a row whose only column RATE differs from the first
percentage candidate rate solely in letter case has a non-null cell, yet
extraction returns None: the membership test of the source is exact on
case, so the upper-cased column is never found and the claimed
case-insensitive matching does not hold. -/
theorem extract_value_misses_uppercase_column :
    lookup_col [("RATE", some 50)] "RATE" = some (some 50) ∧
    extract_value [("RATE", some 50)] "percentage" = none ∧
    extract_value [("RATE", some 50)] "percentage" ≠ some 50 := by
  decide

/-- C3 amended: value extraction tries the fixed per-type ordered candidate
list with case-sensitive exact column matching, and the first candidate
whose column is present with a non-null cell wins: whenever the candidate
list of the metric type splits as pre, c, post with every column of pre
absent or null in the row and c present with a non-null cell, the extracted
value is the cell of c. -/
theorem extract_value_first_match (row : Row) (mt c : String) (v : Int)
    (pre post : List String)
    (hsplit : value_columns mt = pre ++ c :: post)
    (hc : lookup_col row c = some (some v))
    (hpre : ∀ c2 ∈ pre,
      lookup_col row c2 = none ∨ lookup_col row c2 = some none) :
    extract_value row mt = some v := by
  unfold extract_value
  rw [hsplit]
  exact first_match_append row c v pre post hc hpre

/-- C3 witness: on a row where the first percentage candidate rate is
present but null and the second candidate percentage holds 42, extraction
skips the null and returns 42. -/
theorem extract_value_first_match_witness :
    extract_value [("rate", none), ("percentage", some 42)] "percentage" =
      some 42 :=
  extract_value_first_match [("rate", none), ("percentage", some 42)]
    "percentage" "percentage" 42 ["rate"]
    ["ratio", "dormant_rate", "activation_rate"] rfl rfl (by decide)

set_option maxRecDepth 10000 in
/-- C6 counterexample: a failing query raises an exception whose message
wraps only the underlying failure text; the message does not carry a copy
of the query text, truncated or otherwise: the character list of the query
is no infix of the character list of the message, as the message is shorter
than the query. -/
theorem query_error_lacks_query_text :
    (execute_query (.ok ()) (fun _ => .error "boom")
        "SELECT payment_id FROM failed_payments").1 =
      .error (.queryError "Query execution failed: boom") ∧
    ¬ ("SELECT payment_id FROM failed_payments".toList <:+:
        "Query execution failed: boom".toList) := by
  refine ⟨rfl, fun h => ?_⟩
  have hlen := h.length_le
  have h1 : ("SELECT payment_id FROM failed_payments".toList).length = 38 :=
    rfl
  have h2 : ("Query execution failed: boom".toList).length = 28 := rfl
  rw [h1, h2] at hlen
  omega

/-- C6 amended: for every query text whose execution fails, execute_query
raises a generic exception whose message is the underlying failure text
prefixed with a fixed diagnostic label; the truncated copy of the query
text (its first 100 characters) appears only in the log line emitted before
execution, not in the raised exception. -/
theorem execute_query_failure_message
    (runSql : String → Except String (List Row)) (q m : String)
    (hq : runSql q = .error m) :
    (execute_query (.ok ()) runSql q).1 =
      .error (.queryError ("Query execution failed: " ++ m)) ∧
    ("Executing query: " ++ q.take 100 ++ "...") ∈
      (execute_query (.ok ()) runSql q).2 := by
  unfold execute_query
  rw [hq]
  exact ⟨rfl, List.mem_cons_self _ _⟩

/-- C6 witness: the amended failure contract evaluated on a concrete query
and a failing execution layer. -/
theorem execute_query_failure_message_witness :
    (execute_query (.ok ()) (fun _ => .error "boom")
        "SELECT payment_id FROM failed_payments").1 =
      .error (.queryError "Query execution failed: boom") ∧
    ("Executing query: " ++
        "SELECT payment_id FROM failed_payments".take 100 ++ "...") ∈
      (execute_query (.ok ()) (fun _ => .error "boom")
        "SELECT payment_id FROM failed_payments").2 :=
  execute_query_failure_message (fun _ => .error "boom")
    "SELECT payment_id FROM failed_payments" "boom" rfl

/-- C8 counterexample: refreshing a stale handle whose close raises emits
no log line about the close failure: the only log output of the call is the
creation notice, because the close call sits in a bare try/except whose
handler is pass and logs nothing.  The close is attempted (handle 7 appears
in the closed list) and the environment marks its close as raising, yet the
log output mentions neither the handle nor any error. -/
theorem stale_close_error_not_logged :
    (get_connection ⟨.ok 8, fun c => c == 7⟩ ⟨some 7, some 0, 300⟩
        1000).closed = [7] ∧
    (fun c => c == 7) 7 = true ∧
    (get_connection ⟨.ok 8, fun c => c == 7⟩ ⟨some 7, some 0, 300⟩
        1000).logs = ["Created new Snowflake connection"] := by
  refine ⟨rfl, rfl, rfl⟩

/-- C8 amended: getConnection called again within the timeout window
returns the same handle and changes nothing; a handle older than the
configured timeout is never reused: it is closed best-effort and a freshly
created handle is returned, and the outcome never depends on whether the
close raised, because close errors are swallowed silently (the handler is
pass: no log, no propagation). -/
theorem get_connection_state_machine (cr : Except String Nat)
    (f g : Nat → Bool) (st : SFState) (c t0 t1 t2 c2 : Nat)
    (hconn : st.conn = some c)
    (hlast : st.last_connection_time = some t0)
    (h1 : t1 - t0 ≤ st.connection_timeout)
    (h2 : t2 - t0 > st.connection_timeout)
    (hcr : cr = .ok c2) :
    get_connection ⟨cr, f⟩ st t1 =
      { result := .ok c, state := st, closed := [], logs := [] } ∧
    get_connection ⟨cr, f⟩ st t2 =
      { result := .ok c2,
        state := { st with conn := some c2,
                           last_connection_time := some t2 },
        closed := [c],
        logs := ["Created new Snowflake connection"] } ∧
    get_connection ⟨cr, f⟩ st t2 = get_connection ⟨cr, g⟩ st t2 := by
  refine ⟨?_, ?_, rfl⟩
  · have hcond : ¬ (st.conn = none ∨ st.last_connection_time = none ∨
        t1 - st.last_connection_time.getD 0 > st.connection_timeout) := by
      rw [hconn, hlast]
      simp only [Option.getD_some]
      push_neg
      refine ⟨by simp, by simp, by omega⟩
    unfold get_connection
    rw [if_neg hcond, hconn]
    rfl
  · have hcond : st.conn = none ∨ st.last_connection_time = none ∨
        t2 - st.last_connection_time.getD 0 > st.connection_timeout := by
      rw [hlast]
      right; right
      simpa using h2
    subst hcr
    unfold get_connection
    rw [if_pos hcond, hconn]
    rfl

/-- C8 witness: the amended staleness state machine evaluated on a handle
created at time 0 with the default 300 second timeout, reused at time 100,
refreshed at time 1000 with a close that raises. -/
theorem get_connection_state_machine_witness :
    get_connection ⟨.ok 8, fun c => c == 7⟩ ⟨some 7, some 0, 300⟩ 100 =
      { result := .ok 7, state := ⟨some 7, some 0, 300⟩, closed := [],
        logs := [] } ∧
    get_connection ⟨.ok 8, fun c => c == 7⟩ ⟨some 7, some 0, 300⟩ 1000 =
      { result := .ok 8, state := ⟨some 8, some 1000, 300⟩, closed := [7],
        logs := ["Created new Snowflake connection"] } ∧
    get_connection ⟨.ok 8, fun c => c == 7⟩ ⟨some 7, some 0, 300⟩ 1000 =
      get_connection ⟨.ok 8, fun _ => false⟩ ⟨some 7, some 0, 300⟩ 1000 :=
  get_connection_state_machine (.ok 8) (fun c => c == 7) (fun _ => false)
    ⟨some 7, some 0, 300⟩ 7 0 100 1000 8 rfl rfl (by decide) (by decide) rfl

/-- C9 counterexample: a failed refresh of a stale handle does not leave
the manager Absent: creation raises at time 1000 on a manager holding the
stale handle 7, the error propagates, but the conn field still holds
handle 7 afterwards, because the assignment to it is never reached and the
field is never cleared. -/
theorem failed_refresh_not_absent :
    (get_connection ⟨.error "bad key", fun _ => false⟩ ⟨some 7, some 0, 300⟩
        1000).result =
      .error "Failed to connect to Snowflake: bad key" ∧
    (get_connection ⟨.error "bad key", fun _ => false⟩ ⟨some 7, some 0, 300⟩
        1000).state.conn = some 7 ∧
    (get_connection ⟨.error "bad key", fun _ => false⟩ ⟨some 7, some 0, 300⟩
        1000).state.conn ≠ none := by
  refine ⟨rfl, rfl, by decide⟩

/-- C9 amended: whenever session creation fails inside getConnection, the
error propagates and every state field keeps the value it had before the
call: a manager that held no handle still holds none, but a manager
refreshing a stale handle retains that stale handle instead of being left
Absent. -/
theorem get_connection_create_failure (env : SFEnv) (st : SFState)
    (t : Nat) (m : String)
    (hstale : st.conn = none ∨ st.last_connection_time = none ∨
      t - st.last_connection_time.getD 0 > st.connection_timeout)
    (hcr : env.create = .error m) :
    get_connection env st t =
      { result := .error ("Failed to connect to Snowflake: " ++ m),
        state := st,
        closed := match st.conn with
          | some c => [c]
          | none => [],
        logs := ["Snowflake connection error: " ++ m] } := by
  unfold get_connection
  rw [if_pos hstale]
  unfold create_connection
  rw [hcr]

/-- C9 witness: the amended creation-failure rule evaluated on a fresh
manager with no handle, where the state is unchanged and hence still
Absent. -/
theorem get_connection_create_failure_witness :
    get_connection ⟨.error "bad key", fun _ => false⟩ ⟨none, none, 300⟩ 5 =
      { result := .error "Failed to connect to Snowflake: bad key",
        state := ⟨none, none, 300⟩, closed := [],
        logs := ["Snowflake connection error: bad key"] } :=
  get_connection_create_failure ⟨.error "bad key", fun _ => false⟩
    ⟨none, none, 300⟩ 5 "bad key" (Or.inl rfl) rfl
